import Mathlib

/-!
# Verification of the Tempo configuration-translation shim

A shallow embedding of `pkg/tempo/config.go` and `pkg/tempo/tempo.go`:
the translation of the user-facing `Config` into the collector's
mapping-of-mappings configuration graph, and the supervisor's
start/stop sequencing.  Receiver, batch and queue settings are opaque
to the shim, so they are type parameters here; the collector framework
stages (viper merge, factory construction, `config.Load`) are abstract
parameters that may fail, and the file-system read done for
`password_file` is a function from paths to optional contents.
-/

namespace Tempo

/-- The standard base64 alphabet, as used by Go's `base64.StdEncoding`. -/
def base64Alphabet : List Char :=
  "ABCDEFGHIJKLMNOPQRSTUVWXYZabcdefghijklmnopqrstuvwxyz0123456789+/".data

/-- The base64 digit for a 6-bit value. -/
def b64char (n : Nat) : Char := base64Alphabet.getD n 'A'

/-- Standard base64 encoding of a byte sequence, with `=` padding,
mirroring `base64.StdEncoding.EncodeToString`. -/
def base64Encode : List Nat → List Char
  | [] => []
  | [b0] =>
      let n := b0 * 65536
      [b64char (n / 262144 % 64), b64char (n / 4096 % 64), '=', '=']
  | [b0, b1] =>
      let n := b0 * 65536 + b1 * 256
      [b64char (n / 262144 % 64), b64char (n / 4096 % 64), b64char (n / 64 % 64), '=']
  | b0 :: b1 :: b2 :: rest =>
      let n := b0 * 65536 + b1 * 256 + b2
      b64char (n / 262144 % 64) :: b64char (n / 4096 % 64) :: b64char (n / 64 % 64) ::
        b64char (n % 64) :: base64Encode rest

/-- UTF-8 byte sequence of a character, as Go's `[]byte(string)` produces
for a valid string. -/
def utf8Bytes (c : Char) : List Nat :=
  let n := c.toNat
  if n < 128 then [n]
  else if n < 2048 then [192 + n / 64, 128 + n % 64]
  else if n < 65536 then [224 + n / 4096, 128 + n / 64 % 64, 128 + n % 64]
  else [240 + n / 262144, 128 + n / 4096 % 64, 128 + n / 64 % 64, 128 + n % 64]

/-- UTF-8 bytes of a string. -/
def stringBytes (s : String) : List Nat := (s.data.map utf8Bytes).flatten

/-- `base64.StdEncoding.EncodeToString([]byte(s))`. -/
def base64String (s : String) : String := String.mk (base64Encode (stringBytes s))

/-- `BasicAuthConfig` from `config.go`: username, password and an optional
password file path (the Go zero value `""` means unset). -/
structure BasicAuthConfig where
  username : String
  password : String
  passwordFile : String
deriving DecidableEq

/-- `RWConfig` from `config.go`.  Batch and queue settings are passed
through uninterpreted, so they are type parameters. -/
structure RWConfig (β κ : Type) where
  url : String
  basicAuth : Option BasicAuthConfig
  batch : Option β
  queue : Option κ
deriving DecidableEq

/-- `Config` from `config.go`.  The Go `Receivers` field is a
`map[string]interface{}`; it is embedded as an association list whose
order stands for the map's (arbitrary) iteration order. -/
structure Config (ρ β κ : Type) where
  enabled : Bool
  remoteWrite : RWConfig β κ
  receivers : List (String × ρ)
deriving DecidableEq

/-- The errors `otelConfig` can return, one constructor per `return nil, err`
site: the three validation errors (`ConfigInvalid`), the password-file read
failure (`CredentialLoadError`), and the three wrapped framework failures. -/
inductive TempoError where
  | configInvalid (msg : String)
  | credentialLoadError (path : String)
  | mergeError (msg : String)
  | factoriesError (msg : String)
  | loadError (msg : String)
deriving DecidableEq

/-- One entry of the `exporters` section: `endpoint` and `headers` exactly as
built in `otelConfig` (`headers` is the Go `map[string]string`, `none` when
the variable stays `nil`). -/
structure ExporterEntry where
  endpoint : String
  headers : Option (List (String × String))
deriving DecidableEq

/-- The `pipelines.traces` entry: exporter, processor and receiver name
lists. -/
structure TracesPipeline where
  exporters : List String
  processors : List String
  receivers : List String
deriving DecidableEq

/-- The `otelMapStructure` built by `otelConfig`: the four top-level
sections of the Translated Graph.  Go maps are association lists in
insertion order; processor settings are either batch (`Sum.inl`) or queue
(`Sum.inr`) settings. -/
structure OtelMapStructure (ρ β κ : Type) where
  exporters : List (String × ExporterEntry)
  processors : List (String × (β ⊕ κ))
  receivers : List (String × ρ)
  pipelines : List (String × TracesPipeline)
deriving DecidableEq

/-- The effective password: `ba.Password`, overridden by the content of
`ba.PasswordFile` when that path is set, failing when the file cannot be
read (`fs` returns `none`).  Mirrors the first half of the basic-auth block
of `otelConfig`. -/
def loadPassword (fs : String → Option String) (ba : BasicAuthConfig) :
    Except TempoError String :=
  if ba.passwordFile.length > 0 then
    match fs ba.passwordFile with
    | none => .error (.credentialLoadError ba.passwordFile)
    | some content => .ok content
  else .ok ba.password

/-- The `headers` variable of `otelConfig`: `none` when no basic auth is
configured, otherwise the single synthesized `Authorization` header. -/
def buildHeaders (fs : String → Option String) (basicAuth : Option BasicAuthConfig) :
    Except TempoError (Option (List (String × String))) :=
  match basicAuth with
  | none => .ok none
  | some ba =>
    match loadPassword fs ba with
    | .error e => .error e
    | .ok password =>
        .ok (some [("Authorization",
          "Basic " ++ base64String (ba.username ++ ":" ++ password))])

/-- The `processors` section entries of `otelConfig`: batch first, then
queue, each only when configured. -/
def processorEntries (c : Config ρ β κ) : List (String × (β ⊕ κ)) :=
  (match c.remoteWrite.batch with
   | some b => [("batch", Sum.inl b)]
   | none => []) ++
  (match c.remoteWrite.queue with
   | some q => [("queue", Sum.inr q)]
   | none => [])

/-- The `processorNames` list of `otelConfig`: `"batch"` appended first when
batch is configured, then `"queue"` when queue is configured. -/
def processorNames (c : Config ρ β κ) : List String :=
  (match c.remoteWrite.batch with
   | some _ => ["batch"]
   | none => []) ++
  (match c.remoteWrite.queue with
   | some _ => ["queue"]
   | none => [])

/-- The Translated Graph `otelConfig` assembles once validation and header
synthesis have succeeded: a single `otlp` exporter holding the remote-write
URL and the headers, the processor entries, the receivers passed through
untouched, and the single `traces` pipeline wiring the names together. -/
def graphOf (c : Config ρ β κ) (headers : Option (List (String × String))) :
    OtelMapStructure ρ β κ :=
  { exporters := [("otlp", { endpoint := c.remoteWrite.url, headers := headers })]
  , processors := processorEntries c
  , receivers := c.receivers
  , pipelines := [("traces",
      { exporters := ["otlp"]
      , processors := processorNames c
      , receivers := c.receivers.map Prod.fst })] }

/-- The translation half of `otelConfig`: the three validation checks in
source order, then header synthesis (which reads the password file), then
the assembly of `otelMapStructure`. -/
def otelMapStructure (fs : String → Option String) (c : Config ρ β κ) :
    Except TempoError (OtelMapStructure ρ β κ) :=
  if !c.enabled then
    .error (.configInvalid "tempo config not enabled")
  else if c.receivers.length == 0 then
    .error (.configInvalid "must have at least one configured receiver")
  else if c.remoteWrite.url.length == 0 then
    .error (.configInvalid "must have a configured remote_write.url")
  else
    match buildHeaders fs c.remoteWrite.basicAuth with
    | .error e => .error e
    | .ok headers => .ok (graphOf c headers)

/-- The headers attached to the `otlp` exporter entry of a graph. -/
def exporterHeaders (g : OtelMapStructure ρ β κ) : Option (List (String × String)) :=
  (g.exporters.lookup "otlp").bind ExporterEntry.headers

/-- The `traces` pipeline of a graph (empty wiring when absent). -/
def tracesOf (g : OtelMapStructure ρ β κ) : TracesPipeline :=
  match g.pipelines.lookup "traces" with
  | some t => t
  | none => { exporters := [], processors := [], receivers := [] }

/-- The collector-framework calls made by the tail of `otelConfig`, in
source order: `v.MergeConfigMap`, `tracingFactories()` (factory/registry
construction), `config.Load` (which performs the factory lookups). -/
inductive LoadEv where
  | viperMerge
  | factoryConstruction
  | configLoad
deriving DecidableEq

/-- The three framework operations `otelConfig` delegates to after building
`otelMapStructure`.  They are external to the shim, so they are abstract
fallible functions here (`φ` the factories value, `ω` the loaded config). -/
structure CollectorStages (ρ β κ φ ω : Type) where
  mergeConfigMap : OtelMapStructure ρ β κ → Except String Unit
  tracingFactories : Except String φ
  configLoad : OtelMapStructure ρ β κ → φ → Except String ω

/-- The whole of `otelConfig`: translation, then viper merge, factory
construction and `config.Load`, each aborting with its wrapped error
exactly as in the source.  The second component records which framework
calls were made. -/
def otelConfigFull (fs : String → Option String) (st : CollectorStages ρ β κ φ ω)
    (c : Config ρ β κ) : Except TempoError ω × List LoadEv :=
  match otelMapStructure fs c with
  | .error e => (.error e, [])
  | .ok m =>
    match st.mergeConfigMap m with
    | .error msg =>
        (.error (.mergeError ("failed to merge in mapstructure config " ++ msg)),
         [.viperMerge])
    | .ok _ =>
      match st.tracingFactories with
      | .error msg =>
          (.error (.factoriesError ("failed to create factories " ++ msg)),
           [.viperMerge, .factoryConstruction])
      | .ok f =>
        match st.configLoad m f with
        | .error msg =>
            (.error (.loadError ("failed to load OTel config " ++ msg)),
             [.viperMerge, .factoryConstruction, .configLoad])
        | .ok w => (.ok w, [.viperMerge, .factoryConstruction, .configLoad])

/-- Whether a `TempoError` is one of the three validation errors (the
spec's `ConfigInvalid` category). -/
def TempoError.isConfigInvalid : TempoError → Bool
  | .configInvalid _ => true
  | _ => false

/-- Whether a translation result is a `ConfigInvalid` failure. -/
def resultConfigInvalid : Except TempoError ω → Bool
  | .error e => e.isConfigInvalid
  | .ok _ => false

/-- Observable events of `Tempo.Stop`: the two kinds of shutdown calls and
the error logs (log message plus the shutdown error it reports). -/
inductive StopEv where
  | shutdownReceivers
  | shutdownProcessors
  | logError (msg e : String)
deriving DecidableEq

/-- The outcomes of the three shutdown calls `Stop` makes, in call order:
`none` is success, `some e` a failure with message `e`.  `ShutdownAll` is
called twice and may fail differently each time. -/
structure StopEnv where
  receiversShutdown1 : Option String
  processorsShutdown : Option String
  receiversShutdown2 : Option String
deriving DecidableEq

/-- The `if err := ...; err != nil { log }` pattern of `Stop`. -/
def logIf (msg : String) : Option String → List StopEv
  | none => []
  | some e => [.logError msg e]

/-- `Tempo.Stop`: receiver shutdown, processor shutdown, receiver shutdown
again, each failure only logged (with the source's three log messages).
The function is total and returns only its event trace: `Stop` has no
error return. -/
def stop (env : StopEnv) : List StopEv :=
  [StopEv.shutdownReceivers] ++ logIf "failed to shutdown receiver" env.receiversShutdown1
    ++ [StopEv.shutdownProcessors] ++ logIf "failed to shutdown processors" env.processorsShutdown
    ++ [StopEv.shutdownReceivers] ++ logIf "failed to shutdown receivers" env.receiversShutdown2

/-- Whether a `Stop` event is a shutdown call (rather than a log). -/
def isShutdownCall : StopEv → Bool
  | .shutdownReceivers => true
  | .shutdownProcessors => true
  | .logError _ _ => false

/-- The stages of `buildAndStartPipeline`, in source order. -/
inductive StartEv where
  | translateConfig
  | createFactories
  | buildExportersStage
  | startExportersStage
  | buildPipelinesStage
  | startProcessorsStage
  | buildReceiversStage
  | startReceiversStage
deriving DecidableEq

/-- The outcome of each stage of `buildAndStartPipeline` (`none` success,
`some e` failure with message `e`); the stages themselves are external
builder/framework calls. -/
structure StartEnv where
  translateConfig : Option String
  createFactories : Option String
  buildExporters : Option String
  startExporters : Option String
  buildPipelines : Option String
  startProcessors : Option String
  buildReceivers : Option String
  startReceivers : Option String
deriving DecidableEq

/-- `Tempo.buildAndStartPipeline`: runs the eight stages in source order,
aborting at the first failure with the exact wrapped error message the
source returns there (note the source reuses "failed to build exporters"
for the pipelines-builder failure and "failed to start receivers" for the
receivers-builder failure).  The second component records the stages that
were attempted. -/
def buildAndStartPipeline (env : StartEnv) : Except String Unit × List StartEv :=
  match env.translateConfig with
  | some e => (.error ("failed to load otelConfig from agent tempo config " ++ e),
      [.translateConfig])
  | none =>
  match env.createFactories with
  | some e => (.error ("failed to load tracing factories " ++ e),
      [.translateConfig, .createFactories])
  | none =>
  match env.buildExporters with
  | some e => (.error ("failed to build exporters " ++ e),
      [.translateConfig, .createFactories, .buildExportersStage])
  | none =>
  match env.startExporters with
  | some e => (.error ("failed to start exporters " ++ e),
      [.translateConfig, .createFactories, .buildExportersStage, .startExportersStage])
  | none =>
  match env.buildPipelines with
  | some e => (.error ("failed to build exporters " ++ e),
      [.translateConfig, .createFactories, .buildExportersStage, .startExportersStage,
       .buildPipelinesStage])
  | none =>
  match env.startProcessors with
  | some e => (.error ("failed to start processors " ++ e),
      [.translateConfig, .createFactories, .buildExportersStage, .startExportersStage,
       .buildPipelinesStage, .startProcessorsStage])
  | none =>
  match env.buildReceivers with
  | some e => (.error ("failed to start receivers " ++ e),
      [.translateConfig, .createFactories, .buildExportersStage, .startExportersStage,
       .buildPipelinesStage, .startProcessorsStage, .buildReceiversStage])
  | none =>
  match env.startReceivers with
  | some e => (.error ("failed to start receivers " ++ e),
      [.translateConfig, .createFactories, .buildExportersStage, .startExportersStage,
       .buildPipelinesStage, .startProcessorsStage, .buildReceiversStage,
       .startReceiversStage])
  | none => (.ok (),
      [.translateConfig, .createFactories, .buildExportersStage, .startExportersStage,
       .buildPipelinesStage, .startProcessorsStage, .buildReceiversStage,
       .startReceiversStage])

/-! ## Helper lemmas -/

theorem string_length_eq_zero (s : String) : s.length = 0 ↔ s = "" := by
  cases s with
  | mk data => simp [String.length, String.ext_iff]

theorem buildHeaders_noAuth (fs : String → Option String) :
    buildHeaders fs none = .ok none := rfl

theorem buildHeaders_noFile (fs : String → Option String) (ba : BasicAuthConfig)
    (h : ba.passwordFile = "") :
    buildHeaders fs (some ba) =
      .ok (some [("Authorization",
        "Basic " ++ base64String (ba.username ++ ":" ++ ba.password))]) := by
  simp [buildHeaders, loadPassword, h]

theorem buildHeaders_fileRead (fs : String → Option String) (ba : BasicAuthConfig)
    (s : String) (hpf : ba.passwordFile ≠ "") (hfs : fs ba.passwordFile = some s) :
    buildHeaders fs (some ba) =
      .ok (some [("Authorization",
        "Basic " ++ base64String (ba.username ++ ":" ++ s))]) := by
  have hpos : 0 < ba.passwordFile.length := by
    rcases Nat.eq_zero_or_pos ba.passwordFile.length with h0 | h0
    · exact absurd ((string_length_eq_zero _).mp h0) hpf
    · exact h0
  simp [buildHeaders, loadPassword, hpos, hfs]

theorem buildHeaders_fileUnreadable (fs : String → Option String) (ba : BasicAuthConfig)
    (hpf : ba.passwordFile ≠ "") (hfs : fs ba.passwordFile = none) :
    buildHeaders fs (some ba) = .error (.credentialLoadError ba.passwordFile) := by
  have hpos : 0 < ba.passwordFile.length := by
    rcases Nat.eq_zero_or_pos ba.passwordFile.length with h0 | h0
    · exact absurd ((string_length_eq_zero _).mp h0) hpf
    · exact h0
  simp [buildHeaders, loadPassword, hpos, hfs]

theorem buildHeaders_isSome (fs : String → Option String) (b : Option BasicAuthConfig)
    (hd : Option (List (String × String))) (h : buildHeaders fs b = .ok hd) :
    hd.isSome = b.isSome := by
  cases b with
  | none => simp [buildHeaders] at h; simp [h.symm]
  | some ba =>
    simp only [buildHeaders] at h
    cases hlp : loadPassword fs ba with
    | error e => rw [hlp] at h; cases h
    | ok pw => rw [hlp] at h; cases h; rfl

theorem otelMapStructure_ok_iff (fs : String → Option String) (c : Config ρ β κ)
    (g : OtelMapStructure ρ β κ) :
    otelMapStructure fs c = .ok g ↔
      c.enabled = true ∧ c.receivers ≠ [] ∧ c.remoteWrite.url ≠ "" ∧
        ∃ hd, buildHeaders fs c.remoteWrite.basicAuth = .ok hd ∧ g = graphOf c hd := by
  unfold otelMapStructure
  cases hc : c.enabled with
  | false => simp
  | true =>
    cases hr : c.receivers with
    | nil => simp [hr]
    | cons a as =>
      by_cases hu : c.remoteWrite.url = ""
      · have : c.remoteWrite.url.length = 0 := (string_length_eq_zero _).mpr hu
        simp [this, hu]
      · have h0 : c.remoteWrite.url.length ≠ 0 :=
          fun h0 => hu ((string_length_eq_zero _).mp h0)
        cases hbh : buildHeaders fs c.remoteWrite.basicAuth with
        | error e => simp [h0, hu, hbh]
        | ok hd =>
          simp [h0, hu, hbh]
          exact ⟨fun h => h.symm, fun h => h.symm⟩

theorem tracesOf_graphOf (c : Config ρ β κ) (hd : Option (List (String × String))) :
    tracesOf (graphOf c hd) =
      { exporters := ["otlp"], processors := processorNames c
      , receivers := c.receivers.map Prod.fst } := rfl

theorem exporterHeaders_graphOf (c : Config ρ β κ) (hd : Option (List (String × String))) :
    exporterHeaders (graphOf c hd) = hd := rfl

theorem loadPassword_error_form (fs : String → Option String) (ba : BasicAuthConfig)
    (e : TempoError) (h : loadPassword fs ba = .error e) :
    e = .credentialLoadError ba.passwordFile := by
  unfold loadPassword at h
  by_cases hp : ba.passwordFile.length > 0
  · rw [if_pos hp] at h
    cases hfs : fs ba.passwordFile with
    | none =>
      rw [hfs] at h
      injection h with h'
      exact h'.symm
    | some s => rw [hfs] at h; exact Except.noConfusion h
  · rw [if_neg hp] at h; exact Except.noConfusion h

theorem buildHeaders_error_form (fs : String → Option String) (b : Option BasicAuthConfig)
    (e : TempoError) (h : buildHeaders fs b = .error e) :
    ∃ p, e = .credentialLoadError p := by
  cases b with
  | none => exact Except.noConfusion h
  | some ba =>
    simp only [buildHeaders] at h
    cases hlp : loadPassword fs ba with
    | error e2 =>
      rw [hlp] at h
      simp only [Except.error.injEq] at h
      exact ⟨ba.passwordFile, by rw [← h, loadPassword_error_form fs ba e2 hlp]⟩
    | ok pw => rw [hlp] at h; exact Except.noConfusion h

theorem buildHeaders_header_form (fs : String → Option String) (b : Option BasicAuthConfig)
    (hd : Option (List (String × String))) (h : buildHeaders fs b = .ok hd)
    (l : List (String × String)) (hl : hd = some l) :
    ∃ v, l = [("Authorization", v)] := by
  cases b with
  | none =>
    simp only [buildHeaders, Except.ok.injEq] at h
    rw [← h] at hl
    exact Option.noConfusion hl
  | some ba =>
    simp only [buildHeaders] at h
    cases hlp : loadPassword fs ba with
    | error e => rw [hlp] at h; exact Except.noConfusion h
    | ok pw =>
      rw [hlp] at h
      simp only [Except.ok.injEq] at h
      rw [← h] at hl
      exact ⟨_, (Option.some.inj hl).symm⟩

theorem otelMapStructure_error_credential (fs : String → Option String) (c : Config ρ β κ)
    (e : TempoError) (hc : c.enabled = true) (hr : c.receivers ≠ [])
    (hu : c.remoteWrite.url ≠ "") (h : otelMapStructure fs c = .error e) :
    ∃ p, e = .credentialLoadError p := by
  have hlr : c.receivers.length ≠ 0 := fun h0 => hr (List.length_eq_zero.mp h0)
  have h0 : c.remoteWrite.url.length ≠ 0 :=
    fun h0 => hu ((string_length_eq_zero _).mp h0)
  unfold otelMapStructure at h
  rw [hc] at h
  simp only [Bool.not_true, Bool.false_eq_true, if_false] at h
  rw [if_neg (by simp [hlr]), if_neg (by simp [h0])] at h
  cases hbh : buildHeaders fs c.remoteWrite.basicAuth with
  | error e2 =>
    rw [hbh] at h
    simp only [Except.error.injEq] at h
    obtain ⟨p, hp⟩ := buildHeaders_error_form fs c.remoteWrite.basicAuth e2 hbh
    exact ⟨p, by rw [← h, hp]⟩
  | ok hd => rw [hbh] at h; exact Except.noConfusion h

theorem processorEntries_names (c : Config ρ β κ) :
    (processorEntries c).map Prod.fst = processorNames c := by
  cases hb : c.remoteWrite.batch <;> cases hq : c.remoteWrite.queue <;>
    simp [processorEntries, processorNames, hb, hq]

/-! ## Concrete fixtures used by witnesses and counterexamples -/

/-- A file system with no readable files. -/
def fsEmpty : String → Option String := fun _ => none

/-- A file system where exactly the path `/etc/pw` is readable and holds
the two bytes `p` and a trailing newline. -/
def fsPw : String → Option String :=
  fun p => if p = "/etc/pw" then some "p\x0a" else none

/-- A minimal valid configuration with inline basic auth `u` and `p`. -/
def cfgAuthUP : Config Unit Unit Unit :=
  { enabled := true
  , remoteWrite :=
    { url := "http://tempo:55680"
    , basicAuth := some { username := "u", password := "p", passwordFile := "" }
    , batch := none, queue := none }
  , receivers := [("jaeger", ())] }

/-- The graph translated from `cfgAuthUP`. -/
def gAuthUP : OtelMapStructure Unit Unit Unit :=
  graphOf cfgAuthUP (some [("Authorization", "Basic dTpw")])

/-- A disabled configuration whose basic auth names an unreadable password
file. -/
def cfgDisabledPw : Config Unit Unit Unit :=
  { enabled := false
  , remoteWrite :=
    { url := "http://tempo:55680"
    , basicAuth := some { username := "u", password := "p", passwordFile := "/missing/pw" }
    , batch := none, queue := none }
  , receivers := [("jaeger", ())] }

/-- A valid configuration whose basic auth names an unreadable password
file. -/
def cfgBadPw : Config Unit Unit Unit :=
  { enabled := true
  , remoteWrite :=
    { url := "http://tempo:55680"
    , basicAuth := some { username := "u", password := "p", passwordFile := "/missing/pw" }
    , batch := none, queue := none }
  , receivers := [("jaeger", ())] }

/-- A valid configuration whose basic auth reads its password from
`/etc/pw`, overriding the inline password. -/
def cfgFilePw : Config Unit Unit Unit :=
  { enabled := true
  , remoteWrite :=
    { url := "http://tempo:55680"
    , basicAuth := some { username := "u", password := "inline", passwordFile := "/etc/pw" }
    , batch := none, queue := none }
  , receivers := [("jaeger", ())] }

/-- The graph translated from `cfgFilePw` under `fsPw`. -/
def gFilePw : OtelMapStructure Unit Unit Unit :=
  graphOf cfgFilePw (some [("Authorization", "Basic dTpwCg==")])

/-- A valid configuration with basic auth whose username and password are
both empty and with no password file. -/
def cfgEmptyAuth : Config Unit Unit Unit :=
  { enabled := true
  , remoteWrite :=
    { url := "http://tempo:55680"
    , basicAuth := some { username := "", password := "", passwordFile := "" }
    , batch := none, queue := none }
  , receivers := [("jaeger", ())] }

/-- A valid configuration with both batch and queue processors. -/
def cfgBatchQueue : Config Unit Unit Unit :=
  { enabled := true
  , remoteWrite :=
    { url := "http://tempo:55680", basicAuth := none
    , batch := some (), queue := some () }
  , receivers := [("jaeger", ())] }

/-- The graph translated from `cfgBatchQueue`. -/
def gBatchQueue : OtelMapStructure Unit Unit Unit := graphOf cfgBatchQueue none

/-- A valid configuration with receivers `jaeger` then `zipkin`. -/
def cfgJZ : Config Unit Unit Unit :=
  { enabled := true
  , remoteWrite :=
    { url := "http://tempo:55680", basicAuth := none, batch := none, queue := none }
  , receivers := [("jaeger", ()), ("zipkin", ())] }

/-- `cfgJZ` with its receivers in the opposite iteration order. -/
def cfgZJ : Config Unit Unit Unit :=
  { enabled := true
  , remoteWrite :=
    { url := "http://tempo:55680", basicAuth := none, batch := none, queue := none }
  , receivers := [("zipkin", ()), ("jaeger", ())] }

/-- The graph translated from `cfgJZ`. -/
def gJZ : OtelMapStructure Unit Unit Unit := graphOf cfgJZ none

/-- The graph translated from `cfgZJ`. -/
def gZJ : OtelMapStructure Unit Unit Unit := graphOf cfgZJ none

/-- Trivial framework stages that always succeed. -/
def stagesOk : CollectorStages Unit Unit Unit Unit Unit :=
  { mergeConfigMap := fun _ => .ok ()
  , tracingFactories := .ok ()
  , configLoad := fun _ _ => .ok () }

/-- A disabled but otherwise fully valid configuration. -/
def cfgDisabled : Config Unit Unit Unit :=
  { enabled := false
  , remoteWrite :=
    { url := "http://tempo:55680", basicAuth := none, batch := none, queue := none }
  , receivers := [("jaeger", ())] }

/-! ## The claims -/

/-- Claim C1: for every configuration on which translation succeeds, the
exporters section holds exactly one entry, named `otlp`, whose endpoint is
`remote_write.url`; the `pipelines.traces` exporter list is exactly
`["otlp"]`; and an `Authorization` header is attached to that entry if and
only if basic auth is configured. -/
theorem claim_C1_single_otlp_exporter (fs : String → Option String) (c : Config ρ β κ)
    (g : OtelMapStructure ρ β κ) (h : otelMapStructure fs c = .ok g) :
    g.exporters = [("otlp", { endpoint := c.remoteWrite.url, headers := exporterHeaders g })]
    ∧ (tracesOf g).exporters = ["otlp"]
    ∧ (exporterHeaders g).isSome = c.remoteWrite.basicAuth.isSome
    ∧ ∀ l, exporterHeaders g = some l → ∃ v, l = [("Authorization", v)] := by
  obtain ⟨hc, hrec, hurl, hd, hbh, hg⟩ := (otelMapStructure_ok_iff fs c g).mp h
  subst hg
  rw [exporterHeaders_graphOf, tracesOf_graphOf]
  exact ⟨rfl, rfl, buildHeaders_isSome fs _ hd hbh,
    fun l hl => buildHeaders_header_form fs _ hd hbh l hl⟩

theorem claim_C1_witness :
    gAuthUP.exporters =
      [("otlp", { endpoint := cfgAuthUP.remoteWrite.url, headers := exporterHeaders gAuthUP })]
    ∧ (tracesOf gAuthUP).exporters = ["otlp"]
    ∧ (exporterHeaders gAuthUP).isSome = cfgAuthUP.remoteWrite.basicAuth.isSome :=
  ⟨(claim_C1_single_otlp_exporter fsEmpty cfgAuthUP gAuthUP rfl).1,
   (claim_C1_single_otlp_exporter fsEmpty cfgAuthUP gAuthUP rfl).2.1,
   (claim_C1_single_otlp_exporter fsEmpty cfgAuthUP gAuthUP rfl).2.2.1⟩

/-- Claim C2: for every configuration with basic auth configured and no
password file, on successful translation the synthesized header value is
`Basic ` followed by the standard base64 encoding of
`username ++ ":" ++ password`; the witness instantiates this at
username `u`, password `p`, where it evaluates to `Basic dTpw`. -/
theorem claim_C2_header_base64 (fs : String → Option String) (c : Config ρ β κ)
    (g : OtelMapStructure ρ β κ) (ba : BasicAuthConfig)
    (h : otelMapStructure fs c = .ok g)
    (hba : c.remoteWrite.basicAuth = some ba)
    (hpf : ba.passwordFile = "") :
    exporterHeaders g = some [("Authorization",
      "Basic " ++ base64String (ba.username ++ ":" ++ ba.password))] := by
  obtain ⟨hc, hrec, hurl, hd, hbh, hg⟩ := (otelMapStructure_ok_iff fs c g).mp h
  subst hg
  rw [exporterHeaders_graphOf]
  rw [hba, buildHeaders_noFile fs ba hpf] at hbh
  injection hbh with h2
  exact h2.symm

theorem claim_C2_witness :
    exporterHeaders gAuthUP = some [("Authorization", "Basic dTpw")] := by
  have h := claim_C2_header_base64 fsEmpty cfgAuthUP gAuthUP
    { username := "u", password := "p", passwordFile := "" } rfl rfl rfl
  exact h

/-- Claim C3: for every configuration on which translation succeeds, the
`pipelines.traces` processor list is `["batch", "queue"]` when both are
configured, `["batch"]` when only batch is, `["queue"]` when only queue is,
and `[]` when neither is, and the keys of the processors section are
exactly that same list (absent processors produce no entry at all). -/
theorem claim_C3_processor_list (fs : String → Option String) (c : Config ρ β κ)
    (g : OtelMapStructure ρ β κ) (h : otelMapStructure fs c = .ok g) :
    (tracesOf g).processors = processorNames c
    ∧ g.processors.map Prod.fst = processorNames c
    ∧ (∀ b q, c.remoteWrite.batch = some b → c.remoteWrite.queue = some q →
        processorNames c = ["batch", "queue"])
    ∧ (∀ b, c.remoteWrite.batch = some b → c.remoteWrite.queue = none →
        processorNames c = ["batch"])
    ∧ (∀ q, c.remoteWrite.batch = none → c.remoteWrite.queue = some q →
        processorNames c = ["queue"])
    ∧ (c.remoteWrite.batch = none → c.remoteWrite.queue = none →
        processorNames c = []) := by
  obtain ⟨hc, hrec, hurl, hd, hbh, hg⟩ := (otelMapStructure_ok_iff fs c g).mp h
  subst hg
  rw [tracesOf_graphOf]
  refine ⟨rfl, processorEntries_names c, ?_, ?_, ?_, ?_⟩
  · intro b q hb hq; simp [processorNames, hb, hq]
  · intro b hb hq; simp [processorNames, hb, hq]
  · intro q hb hq; simp [processorNames, hb, hq]
  · intro hb hq; simp [processorNames, hb, hq]

theorem claim_C3_witness :
    (tracesOf gBatchQueue).processors = processorNames cfgBatchQueue
    ∧ gBatchQueue.processors.map Prod.fst = processorNames cfgBatchQueue
    ∧ processorNames cfgBatchQueue = ["batch", "queue"] :=
  ⟨(claim_C3_processor_list fsEmpty cfgBatchQueue gBatchQueue rfl).1,
   (claim_C3_processor_list fsEmpty cfgBatchQueue gBatchQueue rfl).2.1,
   (claim_C3_processor_list fsEmpty cfgBatchQueue gBatchQueue rfl).2.2.1 () () rfl rfl⟩

/-- Claim C4: translation returns a `ConfigInvalid` error exactly when the
configuration is disabled, the receivers mapping is empty, or
`remote_write.url` is empty; and in those cases no framework call at all
(viper merge, factory construction, `config.Load`) has been made. -/
theorem claim_C4_config_invalid_iff (fs : String → Option String)
    (st : CollectorStages ρ β κ φ ω) (c : Config ρ β κ) :
    (resultConfigInvalid (otelConfigFull fs st c).1 = true ↔
      (c.enabled = false ∨ c.receivers = [] ∨ c.remoteWrite.url = ""))
    ∧ ((c.enabled = false ∨ c.receivers = [] ∨ c.remoteWrite.url = "") →
        (otelConfigFull fs st c).2 = []) := by
  by_cases hc : c.enabled = false
  · have hm : otelMapStructure fs c = .error (.configInvalid "tempo config not enabled") := by
      simp [otelMapStructure, hc]
    exact ⟨by simp [otelConfigFull, hm, resultConfigInvalid, TempoError.isConfigInvalid, hc],
           fun _ => by simp [otelConfigFull, hm]⟩
  · have hc' : c.enabled = true := by
      cases hcb : c.enabled
      · exact absurd hcb hc
      · rfl
    by_cases hr : c.receivers = []
    · have hm : otelMapStructure fs c =
          .error (.configInvalid "must have at least one configured receiver") := by
        simp [otelMapStructure, hc', hr]
      exact ⟨by simp [otelConfigFull, hm, resultConfigInvalid, TempoError.isConfigInvalid, hr],
             fun _ => by simp [otelConfigFull, hm]⟩
    · have hlr : c.receivers.length ≠ 0 := fun h0 => hr (List.length_eq_zero.mp h0)
      by_cases hu : c.remoteWrite.url = ""
      · have h0 : c.remoteWrite.url.length = 0 := (string_length_eq_zero _).mpr hu
        have hm : otelMapStructure fs c =
            .error (.configInvalid "must have a configured remote_write.url") := by
          simp [otelMapStructure, hc', hlr, h0]
        exact ⟨by simp [otelConfigFull, hm, resultConfigInvalid, TempoError.isConfigInvalid, hu],
               fun _ => by simp [otelConfigFull, hm]⟩
      · have hrhs : ¬(c.enabled = false ∨ c.receivers = [] ∨ c.remoteWrite.url = "") := by
          rintro (h1 | h1 | h1)
          · exact hc h1
          · exact hr h1
          · exact hu h1
        have hres : resultConfigInvalid (otelConfigFull fs st c).1 = false := by
          cases hm : otelMapStructure fs c with
          | error e =>
            obtain ⟨p, hp⟩ := otelMapStructure_error_credential fs c e hc' hr hu hm
            subst hp
            simp [otelConfigFull, hm, resultConfigInvalid, TempoError.isConfigInvalid]
          | ok m =>
            simp only [otelConfigFull, hm]
            cases hmg : st.mergeConfigMap m with
            | error msg => simp [hmg, resultConfigInvalid, TempoError.isConfigInvalid]
            | ok u =>
              cases hf : st.tracingFactories with
              | error msg => simp [hmg, hf, resultConfigInvalid, TempoError.isConfigInvalid]
              | ok f =>
                cases hl : st.configLoad m f with
                | error msg =>
                  simp [hmg, hf, hl, resultConfigInvalid, TempoError.isConfigInvalid]
                | ok w => simp [hmg, hf, hl, resultConfigInvalid]
        refine ⟨?_, fun hd => absurd hd hrhs⟩
        rw [hres]
        simp [hrhs]

theorem claim_C4_witness :
    (resultConfigInvalid (otelConfigFull fsEmpty stagesOk cfgDisabled).1 = true ↔
      (cfgDisabled.enabled = false ∨ cfgDisabled.receivers = [] ∨
        cfgDisabled.remoteWrite.url = ""))
    ∧ (otelConfigFull fsEmpty stagesOk cfgDisabled).2 = [] :=
  ⟨(claim_C4_config_invalid_iff fsEmpty stagesOk cfgDisabled).1,
   (claim_C4_config_invalid_iff fsEmpty stagesOk cfgDisabled).2 (Or.inl rfl)⟩

/-- Whether a `TempoError` is the password-file failure (the spec's
`CredentialLoadError` category). -/
def TempoError.isCredentialLoad : TempoError → Bool
  | .credentialLoadError _ => true
  | _ => false

/-- Whether a translation result is a `CredentialLoadError` failure. -/
def resultCredentialLoad : Except TempoError ω → Bool
  | .error e => e.isCredentialLoad
  | .ok _ => false

/-- Claim C5 counterexample: `cfgDisabledPw` has
`basic_auth.password_file = "/missing/pw"`, which `fsEmpty` cannot read,
yet translation fails with the `ConfigInvalid` "not enabled" error, not
with a `CredentialLoadError`, because the enabled check runs first. -/
theorem claim_C5_counterexample :
    otelMapStructure fsEmpty cfgDisabledPw =
      .error (.configInvalid "tempo config not enabled")
    ∧ resultCredentialLoad (otelMapStructure fsEmpty cfgDisabledPw) = false :=
  ⟨rfl, rfl⟩

/-- Claim C5 as amended: for every configuration that passes the three
validation checks (enabled, receivers non-empty, url non-empty) and whose
basic auth names a password file that cannot be read, translation fails
with `CredentialLoadError` for that path; the `Except.error` result carries
no Translated Graph, so in particular no exporter entry is produced. -/
theorem claim_C5_credential_load_error (fs : String → Option String) (c : Config ρ β κ)
    (ba : BasicAuthConfig) (hc : c.enabled = true) (hr : c.receivers ≠ [])
    (hu : c.remoteWrite.url ≠ "") (hba : c.remoteWrite.basicAuth = some ba)
    (hpf : ba.passwordFile ≠ "") (hfs : fs ba.passwordFile = none) :
    otelMapStructure fs c = .error (.credentialLoadError ba.passwordFile) := by
  have hlr : c.receivers.length ≠ 0 := fun h0 => hr (List.length_eq_zero.mp h0)
  have h0 : c.remoteWrite.url.length ≠ 0 :=
    fun h0 => hu ((string_length_eq_zero _).mp h0)
  simp [otelMapStructure, hc, hlr, h0, hba,
    buildHeaders_fileUnreadable fs ba hpf hfs]

theorem claim_C5_witness :
    otelMapStructure fsEmpty cfgBadPw = .error (.credentialLoadError "/missing/pw") :=
  claim_C5_credential_load_error fsEmpty cfgBadPw
    { username := "u", password := "p", passwordFile := "/missing/pw" }
    rfl (by decide) (by decide) rfl (by decide) rfl

/-- Claim C6: on every successful translation the `pipelines.traces`
receiver list is exactly the keys of the receivers mapping (in iteration
order, so as a set each key once and no others, and with no duplicates
whenever the map keys are distinct); permuting the map's iteration order
permutes the list, leaving the set unchanged. -/
theorem claim_C6_receiver_names (fs : String → Option String) (c c' : Config ρ β κ)
    (g g' : OtelMapStructure ρ β κ)
    (h : otelMapStructure fs c = .ok g) (h' : otelMapStructure fs c' = .ok g')
    (hperm : c'.receivers.Perm c.receivers) :
    (tracesOf g).receivers = c.receivers.map Prod.fst
    ∧ (∀ n, n ∈ (tracesOf g).receivers ↔ n ∈ c.receivers.map Prod.fst)
    ∧ ((c.receivers.map Prod.fst).Nodup → (tracesOf g).receivers.Nodup)
    ∧ ((tracesOf g').receivers).Perm ((tracesOf g).receivers) := by
  obtain ⟨_, _, _, hd, hbh, hg⟩ := (otelMapStructure_ok_iff fs c g).mp h
  obtain ⟨_, _, _, hd', hbh', hg'⟩ := (otelMapStructure_ok_iff fs c' g').mp h'
  subst hg
  subst hg'
  rw [tracesOf_graphOf, tracesOf_graphOf]
  exact ⟨rfl, fun n => Iff.rfl, id, hperm.map Prod.fst⟩

theorem claim_C6_witness :
    (tracesOf gJZ).receivers = cfgJZ.receivers.map Prod.fst
    ∧ ("zipkin" ∈ (tracesOf gJZ).receivers ↔ "zipkin" ∈ cfgJZ.receivers.map Prod.fst)
    ∧ ((tracesOf gZJ).receivers).Perm ((tracesOf gJZ).receivers) :=
  ⟨(claim_C6_receiver_names fsEmpty cfgJZ cfgZJ gJZ gZJ rfl rfl (by decide)).1,
   (claim_C6_receiver_names fsEmpty cfgJZ cfgZJ gJZ gZJ rfl rfl (by decide)).2.1 "zipkin",
   (claim_C6_receiver_names fsEmpty cfgJZ cfgZJ gJZ gZJ rfl rfl (by decide)).2.2.2⟩

/-- Claim C7: every stop request performs exactly the shutdown-call
sequence receiver shutdown, processor shutdown, receiver shutdown again,
whatever the three calls' outcomes are; each failure appears in the trace
only as a log event.  `stop` is a total function into an event trace, so
no error ever reaches its caller. -/
theorem claim_C7_stop_sequence (env : StopEnv) :
    (stop env).filter isShutdownCall =
      [StopEv.shutdownReceivers, StopEv.shutdownProcessors, StopEv.shutdownReceivers]
    ∧ (∀ e, env.receiversShutdown1 = some e →
        StopEv.logError "failed to shutdown receiver" e ∈ stop env)
    ∧ (∀ e, env.processorsShutdown = some e →
        StopEv.logError "failed to shutdown processors" e ∈ stop env)
    ∧ (∀ e, env.receiversShutdown2 = some e →
        StopEv.logError "failed to shutdown receivers" e ∈ stop env) := by
  obtain ⟨r1, p, r2⟩ := env
  cases r1 <;> cases p <;> cases r2 <;>
    simp [stop, logIf, isShutdownCall]

theorem claim_C7_witness :
    (stop { receiversShutdown1 := some "e1", processorsShutdown := some "e2"
          , receiversShutdown2 := some "e3" }).filter isShutdownCall =
      [StopEv.shutdownReceivers, StopEv.shutdownProcessors, StopEv.shutdownReceivers]
    ∧ StopEv.logError "failed to shutdown receiver" "e1" ∈
        stop { receiversShutdown1 := some "e1", processorsShutdown := some "e2"
             , receiversShutdown2 := some "e3" } :=
  ⟨(claim_C7_stop_sequence _).1, (claim_C7_stop_sequence _).2.1 "e1" rfl⟩

/-- An environment where every startup stage succeeds except the
pipelines (processor) builder, which fails with message `boom`. -/
def envPipelinesFail : StartEnv :=
  { translateConfig := none, createFactories := none, buildExporters := none
  , startExporters := none, buildPipelines := some "boom", startProcessors := none
  , buildReceivers := none, startReceivers := none }

/-- An environment where every startup stage succeeds except the exporters
builder, which fails with message `boom`. -/
def envExportersFail : StartEnv :=
  { translateConfig := none, createFactories := none, buildExporters := some "boom"
  , startExporters := none, buildPipelines := none, startProcessors := none
  , buildReceivers := none, startReceivers := none }

/-- Claim C8, evaluated at the failing input: when only the processor
(pipelines) build stage fails, startup aborts right there, with all
earlier stages attempted and no later stage attempted — but the returned
error is the exporter-build message `failed to build exporters boom`,
identical to the one returned when the exporter build itself fails, so
the error does not identify the failing stage. -/
theorem claim_C8_stage_misreported :
    (buildAndStartPipeline envPipelinesFail).1 = .error "failed to build exporters boom"
    ∧ (buildAndStartPipeline envPipelinesFail).2 =
        [.translateConfig, .createFactories, .buildExportersStage, .startExportersStage,
         .buildPipelinesStage]
    ∧ (buildAndStartPipeline envExportersFail).1 = .error "failed to build exporters boom"
    ∧ (buildAndStartPipeline envExportersFail).2 =
        [.translateConfig, .createFactories, .buildExportersStage] :=
  ⟨rfl, rfl, rfl, rfl⟩

/-- The stage trace of `buildAndStartPipeline` is always a prefix of the
fixed source order, so exporters are built and started before processor
construction begins, processors before receiver construction, and after a
failure no later stage (and no rollback action) appears. -/
theorem buildAndStartPipeline_trace_ordered (env : StartEnv) :
    ∃ t, (buildAndStartPipeline env).2 ++ t =
      [StartEv.translateConfig, StartEv.createFactories, StartEv.buildExportersStage,
       StartEv.startExportersStage, StartEv.buildPipelinesStage,
       StartEv.startProcessorsStage, StartEv.buildReceiversStage,
       StartEv.startReceiversStage] := by
  unfold buildAndStartPipeline
  cases env.translateConfig with
  | some e => exact ⟨_, rfl⟩
  | none =>
  cases env.createFactories with
  | some e => exact ⟨_, rfl⟩
  | none =>
  cases env.buildExporters with
  | some e => exact ⟨_, rfl⟩
  | none =>
  cases env.startExporters with
  | some e => exact ⟨_, rfl⟩
  | none =>
  cases env.buildPipelines with
  | some e => exact ⟨_, rfl⟩
  | none =>
  cases env.startProcessors with
  | some e => exact ⟨_, rfl⟩
  | none =>
  cases env.buildReceivers with
  | some e => exact ⟨_, rfl⟩
  | none =>
  cases env.startReceivers with
  | some e => exact ⟨_, rfl⟩
  | none => exact ⟨_, rfl⟩

/-- Claim C9: for every successfully translated configuration whose basic
auth names a readable password file, the file's content is used verbatim
(no whitespace stripping) as the effective password in the base64
`Authorization` header, whatever the inline password field holds; the
witness reads `p` plus a trailing newline and gets `Basic dTpwCg==`. -/
theorem claim_C9_password_file_verbatim (fs : String → Option String)
    (c : Config ρ β κ) (g : OtelMapStructure ρ β κ) (ba : BasicAuthConfig) (s : String)
    (h : otelMapStructure fs c = .ok g)
    (hba : c.remoteWrite.basicAuth = some ba)
    (hpf : ba.passwordFile ≠ "")
    (hfs : fs ba.passwordFile = some s) :
    exporterHeaders g = some [("Authorization",
      "Basic " ++ base64String (ba.username ++ ":" ++ s))] := by
  obtain ⟨hc, hrec, hurl, hd, hbh, hg⟩ := (otelMapStructure_ok_iff fs c g).mp h
  subst hg
  rw [exporterHeaders_graphOf]
  rw [hba, buildHeaders_fileRead fs ba s hpf hfs] at hbh
  injection hbh with h2
  exact h2.symm

theorem claim_C9_witness :
    exporterHeaders gFilePw = some [("Authorization", "Basic dTpwCg==")] := by
  have h := claim_C9_password_file_verbatim fsPw cfgFilePw gFilePw
    { username := "u", password := "inline", passwordFile := "/etc/pw" } "p\x0a"
    rfl rfl (by decide) rfl
  exact h

/-- Claim C10: for every otherwise-valid configuration whose basic auth
has empty username and password and no password file, translation succeeds
— no non-emptiness validation of the credentials is performed — and the
synthesized header is `Authorization: Basic Og==`, the base64 encoding of
the bare colon. -/
theorem claim_C10_empty_credentials (fs : String → Option String) (c : Config ρ β κ)
    (hc : c.enabled = true) (hr : c.receivers ≠ []) (hu : c.remoteWrite.url ≠ "")
    (hba : c.remoteWrite.basicAuth =
      some { username := "", password := "", passwordFile := "" }) :
    otelMapStructure fs c = .ok (graphOf c (some [("Authorization", "Basic Og==")]))
    ∧ exporterHeaders (graphOf c (some [("Authorization", "Basic Og==")])) =
        some [("Authorization", "Basic Og==")] := by
  have hbh : buildHeaders fs c.remoteWrite.basicAuth =
      .ok (some [("Authorization", "Basic Og==")]) := by
    rw [hba]
    exact (buildHeaders_noFile fs
      { username := "", password := "", passwordFile := "" } rfl).trans rfl
  exact ⟨(otelMapStructure_ok_iff fs c _).mpr ⟨hc, hr, hu, _, hbh, rfl⟩,
    exporterHeaders_graphOf c _⟩

theorem claim_C10_witness :
    otelMapStructure fsEmpty cfgEmptyAuth =
      .ok (graphOf cfgEmptyAuth (some [("Authorization", "Basic Og==")])) :=
  (claim_C10_empty_credentials fsEmpty cfgEmptyAuth rfl (by decide) (by decide) rfl).1

end Tempo
